import Mathlib

/-!
Verification development for the GoPratice product CRUD service.

The Go sources are shallowly embedded:
* `Product` mirrors `internal/models/product.go` (Go zero values: `0` / `""`).
* The repository layer (`repository` package) becomes pure functions over a
  `Store` value that models the `products` table plus the SERIAL id counter
  and a logical clock for `now()` timestamps.
* `UpdateNonBlankBuild` mirrors the dynamic SQL assembly of
  `UpdateNonBlank` (sets / args / argIndex); executing the statement is
  modelled by interpreting the built column-placeholder pairs against the
  argument list.
* The service layer (`internal/service/produceService.go`) is embedded with
  an explicit trace of repository calls, so that "never invokes the store"
  claims are statable.
* The controller layer (`internal/controller/productController.go`) becomes
  functions from a request id, a raw id string, an optionally-parsed body and
  a store to an `HttpResponse`; `parseInt64` models
  `strconv.ParseInt(_, 10, 64)`.
-/

/-- Mirrors `models.Product`: Go struct with int and string fields; the DB
timestamps scan into strings, whose Go zero value is `""`. -/
structure Product where
  ID : Int
  SkuCode : String
  SkuName : String
  SkuAmount : Int
  Expiration : String
  CreateAt : String
  UpdateAt : String
deriving DecidableEq, Repr

/-- Rendering of the logical clock as a timestamp string; injective and never
empty, standing in for `time.Now()` values. -/
def timeStr (n : Nat) : String :=
  "t" ++ toString n

/-- A parameter value passed to the SQL driver: a string, an integer, or the
`time.Now()` value appended for `update_at`. -/
inductive SqlValue where
  | vStr : String → SqlValue
  | vInt : Int → SqlValue
  | vNow : SqlValue
deriving DecidableEq, Repr

/-- Reading an `SqlValue` back as a string column value, the clock resolving
`vNow`. -/
def SqlValue.asString (clock : Nat) : SqlValue → String
  | .vStr s => s
  | .vInt n => toString n
  | .vNow => timeStr clock

/-- Reading an `SqlValue` back as an integer column value. -/
def SqlValue.asInt : SqlValue → Int
  | .vInt n => n
  | _ => 0

/-- The outcome of the dynamic SQL assembly in `UpdateNonBlank`: the SET
fragments as (column, placeholder-number) pairs, the positional argument
list, and the placeholder number used by the `WHERE id = $k` predicate. -/
structure UpdateStmt where
  sets : List (String × Nat)
  args : List SqlValue
  idPlaceholder : Nat
deriving DecidableEq, Repr

/-- Mirrors the statement-building half of
`PostgresProductRepository.UpdateNonBlank` (part_002 lines 90-132): each
non-empty string field appends a `col = $argIndex` fragment and its argument,
then `sku_amount` and `update_at` are appended unconditionally, and finally
the id is appended as the last argument for the `WHERE` predicate. -/
def UpdateNonBlankBuild (id : Int) (input : Product) : UpdateStmt :=
  let sets : List (String × Nat) := []
  let args : List SqlValue := []
  let argIndex : Nat := 1
  let (sets, args, argIndex) :=
    if input.SkuCode ≠ "" then
      (sets ++ [("sku_code", argIndex)], args ++ [SqlValue.vStr input.SkuCode], argIndex + 1)
    else
      (sets, args, argIndex)
  let (sets, args, argIndex) :=
    if input.SkuName ≠ "" then
      (sets ++ [("sku_name", argIndex)], args ++ [SqlValue.vStr input.SkuName], argIndex + 1)
    else
      (sets, args, argIndex)
  let (sets, args, argIndex) :=
    if input.Expiration ≠ "" then
      (sets ++ [("expiration", argIndex)], args ++ [SqlValue.vStr input.Expiration], argIndex + 1)
    else
      (sets, args, argIndex)
  let sets := sets ++ [("sku_amount", argIndex)]
  let args := args ++ [SqlValue.vInt input.SkuAmount]
  let argIndex := argIndex + 1
  let sets := sets ++ [("update_at", argIndex)]
  let args := args ++ [SqlValue.vNow]
  let argIndex := argIndex + 1
  { sets := sets, args := args ++ [SqlValue.vInt id], idPlaceholder := argIndex }

/-- Renders one SET fragment, as `fmt.Sprintf("col = $%d", argIndex)` does. -/
def renderSet (cv : String × Nat) : String :=
  cv.1 ++ " = $" ++ toString cv.2

/-- Renders the full UPDATE statement text, as the `fmt.Sprintf` over
`strings.Join(sets, ", ")` does. -/
def renderUpdateQuery (st : UpdateStmt) : String :=
  "UPDATE products SET " ++ String.intercalate ", " (st.sets.map renderSet) ++
    " WHERE id = $" ++ toString st.idPlaceholder ++
    " RETURNING id, update_at, sku_code, sku_name, sku_amount, expiration"

/-- Applies one `col = value` SET pair to a row, the interpretation of the
UPDATE statement's effect on the matched row. Columns not named by any SET
pair are untouched. -/
def applySet (clock : Nat) (r : Product) (col : String) (v : SqlValue) : Product :=
  if col = "sku_code" then { r with SkuCode := v.asString clock }
  else if col = "sku_name" then { r with SkuName := v.asString clock }
  else if col = "expiration" then { r with Expiration := v.asString clock }
  else if col = "sku_amount" then { r with SkuAmount := v.asInt }
  else if col = "update_at" then { r with UpdateAt := v.asString clock }
  else r

deriving instance DecidableEq for Except

/-- Repository-level error: `ErrProductNotFound`, or any other failure
surfaced opaquely (its text carried along, never interpreted). -/
inductive RepoError where
  | notFound : RepoError
  | fault : String → RepoError
deriving DecidableEq, Repr

/-- Driver-level error for a single-row query: `sql.ErrNoRows` or any other
driver failure. -/
inductive DbErr where
  | noRows : DbErr
  | other : String → DbErr
deriving DecidableEq, Repr

/-- The `products` table plus the SERIAL id counter and a logical clock used
for `now()` timestamps. -/
structure Store where
  rows : List Product
  nextId : Int
  now : Nat
deriving DecidableEq, Repr

/-- Ordering of rows by id, the relation behind `ORDER BY id`. -/
def rowLe (a b : Product) : Prop :=
  a.ID ≤ b.ID

instance : DecidableRel rowLe := fun a b => inferInstanceAs (Decidable (a.ID ≤ b.ID))

instance : IsTotal Product rowLe := ⟨fun a b => Int.le_total a.ID b.ID⟩

instance : IsTrans Product rowLe := ⟨fun _ _ _ hab hbc => le_trans hab hbc⟩

/-- Mirrors `GetAll` (part_002 lines 37-51): `SELECT * FROM products ORDER BY
id`; in the pure model the driver cannot fail, and zero rows yield the empty
list with no error. -/
def Store.GetAll (s : Store) : Except RepoError (List Product) :=
  .ok (List.insertionSort rowLe s.rows)

/-- The driver's single-row `Get`: the first row matching the id, or
`sql.ErrNoRows` when zero rows match. -/
def dbGet (rows : List Product) (id : Int) : Except DbErr Product :=
  match rows.find? (fun r => r.ID == id) with
  | some r => .ok r
  | none => .error DbErr.noRows

/-- Mirrors the error translation in `GetByID` (part_002 lines 62-67):
`sql.ErrNoRows` becomes `ErrProductNotFound`; any other driver failure is
returned unchanged as an opaque fault. -/
def getByIDTranslate : Except DbErr Product → Except RepoError Product
  | .ok p => .ok p
  | .error DbErr.noRows => .error RepoError.notFound
  | .error (DbErr.other m) => .error (RepoError.fault m)

/-- Mirrors `GetByID` (part_002 lines 53-70): driver lookup followed by the
`ErrNoRows` translation. -/
def Store.GetByID (s : Store) (id : Int) : Except RepoError Product :=
  getByIDTranslate (dbGet s.rows id)

/-- Mirrors `Create` (part_002 lines 73-87): INSERT of the four sku fields,
the store assigning the SERIAL id and defaulting both timestamps to now;
`RETURNING id, sku_code, sku_name, sku_amount, expiration` scans into a fresh
struct, so the returned value's timestamp fields keep the zero value `""`. -/
def Store.Create (s : Store) (input : Product) : Product × Store :=
  let row : Product :=
    { ID := s.nextId, SkuCode := input.SkuCode, SkuName := input.SkuName,
      SkuAmount := input.SkuAmount, Expiration := input.Expiration,
      CreateAt := timeStr s.now, UpdateAt := timeStr s.now }
  let ret : Product := { row with CreateAt := "", UpdateAt := "" }
  (ret, { rows := s.rows ++ [row], nextId := s.nextId + 1, now := s.now + 1 })

/-- Mirrors `UpdateNonBlank` (part_002 lines 90-146): build the statement,
then execute it — the row matched by the `WHERE id = $k` argument is rewritten
by the SET pairs (each placeholder `$j` reading `args[j-1]`); no matched row
means `sql.ErrNoRows` from `RETURNING`, translated to `ErrProductNotFound`.
The `RETURNING` clause omits `create_at`, so the scanned return value carries
`""` there while the stored row keeps its value. -/
def Store.UpdateNonBlank (s : Store) (id : Int) (input : Product) :
    Except RepoError Product × Store :=
  let st := UpdateNonBlankBuild id input
  let whereId := (st.args.getD (st.idPlaceholder - 1) (SqlValue.vStr "")).asInt
  match s.rows.find? (fun r => r.ID == whereId) with
  | none => (.error RepoError.notFound, s)
  | some r =>
    let r2 := st.sets.foldl
      (fun acc cv => applySet s.now acc cv.1 (st.args.getD (cv.2 - 1) (SqlValue.vStr ""))) r
    let ret : Product := { r2 with CreateAt := "" }
    (.ok ret,
      { s with rows := s.rows.map (fun q => if q.ID == whereId then r2 else q),
               now := s.now + 1 })

/-- Mirrors `Delete` (part_002 lines 149-165): `DELETE FROM products WHERE
id = $1`; zero affected rows become `ErrProductNotFound`, otherwise success
with no payload. -/
def Store.Delete (s : Store) (id : Int) : Except RepoError Unit × Store :=
  let remaining := s.rows.filter (fun r => !(r.ID == id))
  let rowsAffected := s.rows.length - remaining.length
  if rowsAffected == 0 then (.error RepoError.notFound, s)
  else (.ok (), { s with rows := remaining })

/-- One repository-interface call, recorded so that claims about which store
operations a request reaches are statable. -/
inductive RepoCall where
  | getAll : RepoCall
  | getByID : RepoCall
  | create : RepoCall
  | updateNonBlank : RepoCall
  | delete : RepoCall
deriving DecidableEq, Repr

/-- Mirrors `DefaultProductService.GetProducts`: pass-through to `GetAll`. -/
def GetProductsSvc (s : Store) : Except RepoError (List Product) × List RepoCall :=
  (s.GetAll, [RepoCall.getAll])

/-- Mirrors `DefaultProductService.GetProduct`: pass-through to `GetByID`. -/
def GetProductSvc (s : Store) (id : Int) : Except RepoError Product × List RepoCall :=
  (s.GetByID id, [RepoCall.getByID])

/-- Mirrors `DefaultProductService.CreateProduct`: pass-through to `Create`. -/
def CreateProductSvc (s : Store) (input : Product) : Product × Store × List RepoCall :=
  let (p, s2) := s.Create input
  (p, s2, [RepoCall.create])

/-- Mirrors `DefaultProductService.UpdateProduct` (produceService.go lines
46-54): existence check via `GetByID` first; any error returns immediately,
otherwise delegate to `UpdateNonBlank`. -/
def UpdateProductSvc (s : Store) (id : Int) (input : Product) :
    Except RepoError Product × Store × List RepoCall :=
  match s.GetByID id with
  | .error e => (.error e, s, [RepoCall.getByID])
  | .ok _ =>
    let (res, s2) := s.UpdateNonBlank id input
    (res, s2, [RepoCall.getByID, RepoCall.updateNonBlank])

/-- Mirrors `DefaultProductService.DeleteProduct` (produceService.go lines
57-65): existence check via `GetByID` first; any error returns immediately,
otherwise delegate to `Delete`. -/
def DeleteProductSvc (s : Store) (id : Int) : Except RepoError Unit × Store × List RepoCall :=
  match s.GetByID id with
  | .error e => (.error e, s, [RepoCall.getByID])
  | .ok _ =>
    let (res, s2) := s.Delete id
    (res, s2, [RepoCall.getByID, RepoCall.delete])

/-- A JSON value appearing in a serialized Product: number or string. -/
inductive JsonValue where
  | jNum : Int → JsonValue
  | jStr : String → JsonValue
deriving DecidableEq, Repr

/-- The serialized field list of a Product. Every field of `models.Product`
carries the tag `json:"...,omitempty"`, and `encoding/json` omits a field
whose value is its zero value (`0` for int, `""` for string). -/
def productJson (p : Product) : List (String × JsonValue) :=
  (if p.ID ≠ 0 then [("id", JsonValue.jNum p.ID)] else []) ++
  (if p.SkuCode ≠ "" then [("sku_code", JsonValue.jStr p.SkuCode)] else []) ++
  (if p.SkuName ≠ "" then [("sku_name", JsonValue.jStr p.SkuName)] else []) ++
  (if p.SkuAmount ≠ 0 then [("sku_amount", JsonValue.jNum p.SkuAmount)] else []) ++
  (if p.Expiration ≠ "" then [("expiration", JsonValue.jStr p.Expiration)] else []) ++
  (if p.CreateAt ≠ "" then [("create_at", JsonValue.jStr p.CreateAt)] else []) ++
  (if p.UpdateAt ≠ "" then [("update_at", JsonValue.jStr p.UpdateAt)] else [])

/-- Body of an HTTP response produced by the controller. -/
inductive ResponseBody where
  | product : Product → ResponseBody
  | products : List Product → ResponseBody
  | errBody : String → String → String → ResponseBody
  | message : String → ResponseBody
deriving DecidableEq, Repr

/-- An HTTP response: status code plus JSON body. -/
structure HttpResponse where
  status : Nat
  body : ResponseBody
deriving DecidableEq, Repr

/-- Mirrors `respondWithError`: error envelope with code, message and the
echoed request id. -/
def respondWithError (statusCode : Nat) (errorCode : String) (message : String)
    (requestID : String) : HttpResponse :=
  { status := statusCode, body := ResponseBody.errBody errorCode message requestID }

/-- Mirrors `validateProduct` (productController.go lines 122-132): empty
`sku_code` or negative `sku_amount` yield the corresponding error message. -/
def validateProduct (product : Product) : Option String :=
  if product.SkuCode = "" then some "產品名稱不能為空"
  else if product.SkuAmount < 0 then some "產品庫存不能為負數"
  else none

/-- Model of Go `strconv.ParseInt(s, 10, 64)`: optional sign, at least one
decimal digit, nothing else, and the value must fit in a signed 64-bit
integer; any violation is an error (`none`). -/
def parseInt64 (s : String) : Option Int :=
  let chars := s.data
  if chars = [] then none
  else
    let (neg, digits) :=
      match chars with
      | '-' :: rest => (true, rest)
      | '+' :: rest => (false, rest)
      | _ => (false, chars)
    if digits = [] then none
    else if digits.all (fun c => c.isDigit) then
      let n : Nat := digits.foldl (fun acc c => acc * 10 + (c.toNat - '0'.toNat)) 0
      let v : Int := if neg then -(n : Int) else (n : Int)
      if -(2 ^ 63) ≤ v ∧ v ≤ 2 ^ 63 - 1 then some v else none
    else none

/-- Error mapping of the `GetProduct` handler after the service call
(productController.go lines 83-94): `ErrProductNotFound` → 404
`PRODUCT_NOT_FOUND`, any other error → 500 `PRODUCT_FETCH_ERROR` with a fixed
generic message. -/
def GetProductResult (requestID : String) (svcResult : Except RepoError Product) :
    HttpResponse :=
  match svcResult with
  | .error RepoError.notFound => respondWithError 404 "PRODUCT_NOT_FOUND" "產品未找到" requestID
  | .error (RepoError.fault _) =>
    respondWithError 500 "PRODUCT_FETCH_ERROR" "獲取產品失敗" requestID
  | .ok p => { status := 200, body := ResponseBody.product p }

/-- Mirrors the `GetProduct` handler (productController.go lines 73-95):
parse the id, then call the service and map the result. -/
def GetProductHandler (requestID idStr : String) (s : Store) : HttpResponse :=
  match parseInt64 idStr with
  | none => respondWithError 400 "INVALID_PRODUCT_ID" "無效的產品ID" requestID
  | some id => GetProductResult requestID (GetProductSvc s id).1

/-- Mirrors the `CreateProduct` handler (productController.go lines 98-120):
bind the body, validate, then call the service; in the pure store model the
insert itself cannot fail, so the 500 branch of the Go code is vacuous. -/
def CreateProductHandler (requestID : String) (body : Option Product) (s : Store) :
    HttpResponse × Store × List RepoCall :=
  match body with
  | none => (respondWithError 400 "INVALID_REQUEST_DATA" "無效的請求數據" requestID, s, [])
  | some input =>
    match validateProduct input with
    | some msg => (respondWithError 400 "PRODUCT_VALIDATION_ERROR" msg requestID, s, [])
    | none =>
      let (p, s2, calls) := CreateProductSvc s input
      ({ status := 201, body := ResponseBody.product p }, s2, calls)

/-- Error mapping of the `UpdateProduct` handler after the service call
(productController.go lines 156-168). -/
def UpdateProductResult (requestID : String) (svcResult : Except RepoError Product) :
    HttpResponse :=
  match svcResult with
  | .error RepoError.notFound => respondWithError 404 "PRODUCT_NOT_FOUND" "產品未找到" requestID
  | .error (RepoError.fault _) =>
    respondWithError 500 "PRODUCT_UPDATE_ERROR" "更新產品失敗" requestID
  | .ok p => { status := 200, body := ResponseBody.product p }

/-- Mirrors the `UpdateProduct` handler (productController.go lines 134-169):
parse the id, bind the body, validate, then call the service and map the
result. -/
def UpdateProductHandler (requestID idStr : String) (body : Option Product) (s : Store) :
    HttpResponse × Store × List RepoCall :=
  match parseInt64 idStr with
  | none => (respondWithError 400 "INVALID_PRODUCT_ID" "無效的產品ID" requestID, s, [])
  | some id =>
    match body with
    | none => (respondWithError 400 "INVALID_REQUEST_DATA" "無效的請求數據" requestID, s, [])
    | some input =>
      match validateProduct input with
      | some msg => (respondWithError 400 "PRODUCT_VALIDATION_ERROR" msg requestID, s, [])
      | none =>
        let (res, s2, calls) := UpdateProductSvc s id input
        (UpdateProductResult requestID res, s2, calls)

/-- Mirrors the `DeleteProduct` handler (productController.go lines 171-195):
parse the id, call the service, and map the result. -/
def DeleteProductHandler (requestID idStr : String) (s : Store) :
    HttpResponse × Store × List RepoCall :=
  match parseInt64 idStr with
  | none => (respondWithError 400 "INVALID_PRODUCT_ID" "無效的產品ID" requestID, s, [])
  | some id =>
    match DeleteProductSvc s id with
    | (.error RepoError.notFound, s2, calls) =>
      (respondWithError 404 "PRODUCT_NOT_FOUND" "產品未找到" requestID, s2, calls)
    | (.error (RepoError.fault _), s2, calls) =>
      (respondWithError 500 "PRODUCT_DELETE_ERROR" "刪除產品失敗" requestID, s2, calls)
    | (.ok _, s2, calls) =>
      ({ status := 200, body := ResponseBody.message "產品已成功刪除" }, s2, calls)

/-- Claim C1: for every update input, the statement built by `UpdateNonBlank`
has a SET list containing `sku_code` exactly when `SkuCode` is non-empty,
`sku_name` exactly when `SkuName` is non-empty, `expiration` exactly when
`Expiration` is non-empty, and unconditionally `sku_amount` and `update_at`,
in that fixed order; the placeholders are numbered consecutively from `$1` in
that order, the id predicate uses the final placeholder (which is also the
last argument position), and the argument list matches the placeholder order
position by position, ending with the id. -/
theorem C1_update_stmt_shape (id : Int) (input : Product) :
    (UpdateNonBlankBuild id input).sets.map Prod.fst =
      (if input.SkuCode ≠ "" then ["sku_code"] else []) ++
      (if input.SkuName ≠ "" then ["sku_name"] else []) ++
      (if input.Expiration ≠ "" then ["expiration"] else []) ++
      ["sku_amount", "update_at"] ∧
    (UpdateNonBlankBuild id input).sets.map Prod.snd =
      List.range' 1 (UpdateNonBlankBuild id input).sets.length ∧
    (UpdateNonBlankBuild id input).idPlaceholder =
      (UpdateNonBlankBuild id input).sets.length + 1 ∧
    (UpdateNonBlankBuild id input).args =
      ((if input.SkuCode ≠ "" then [SqlValue.vStr input.SkuCode] else []) ++
       (if input.SkuName ≠ "" then [SqlValue.vStr input.SkuName] else []) ++
       (if input.Expiration ≠ "" then [SqlValue.vStr input.Expiration] else []) ++
       [SqlValue.vInt input.SkuAmount, SqlValue.vNow]) ++ [SqlValue.vInt id] ∧
    (UpdateNonBlankBuild id input).idPlaceholder = (UpdateNonBlankBuild id input).args.length := by
  by_cases hc : input.SkuCode = "" <;> by_cases hn : input.SkuName = "" <;>
    by_cases he : input.Expiration = "" <;>
    simp [UpdateNonBlankBuild, hc, hn, he, List.range']

/-- Claim C2: for every id not present in the store, the service-layer
`UpdateProduct` and `DeleteProduct` return `ErrProductNotFound`, leave the
store unchanged, and never reach the mutating repository calls
(`UpdateNonBlank` resp. `Delete` are absent from the call trace). -/
theorem C2_missing_id_guard (s : Store) (id : Int) (input : Product)
    (h : ∀ r ∈ s.rows, r.ID ≠ id) :
    UpdateProductSvc s id input =
      (.error RepoError.notFound, s, [RepoCall.getByID]) ∧
    DeleteProductSvc s id = (.error RepoError.notFound, s, [RepoCall.getByID]) ∧
    RepoCall.updateNonBlank ∉ (UpdateProductSvc s id input).2.2 ∧
    RepoCall.delete ∉ (DeleteProductSvc s id).2.2 := by
  have hfind : s.rows.find? (fun r => r.ID == id) = none := by
    rw [List.find?_eq_none]
    intro r hr
    simpa using h r hr
  have hget : s.GetByID id = .error RepoError.notFound := by
    simp [Store.GetByID, dbGet, hfind, getByIDTranslate]
  refine ⟨?_, ?_, ?_, ?_⟩ <;> simp [UpdateProductSvc, DeleteProductSvc, hget]

/-- Witness for C2 at the empty store and id 1. -/
theorem C2_missing_id_guard_witness :
    (∀ r ∈ (Store.mk [] 1 0).rows, r.ID ≠ (1 : Int)) ∧
    UpdateProductSvc (Store.mk [] 1 0) 1 (Product.mk 0 "A" "" 0 "" "" "") =
      (.error RepoError.notFound, Store.mk [] 1 0, [RepoCall.getByID]) ∧
    DeleteProductSvc (Store.mk [] 1 0) 1 =
      (.error RepoError.notFound, Store.mk [] 1 0, [RepoCall.getByID]) :=
  ⟨by decide,
   (C2_missing_id_guard (Store.mk [] 1 0) 1 (Product.mk 0 "A" "" 0 "" "" "") (by decide)).1,
   (C2_missing_id_guard (Store.mk [] 1 0) 1 (Product.mk 0 "A" "" 0 "" "" "") (by decide)).2.1⟩

/-- Claim C3: for every parsed request body with empty `sku_code` or negative
`sku_amount`, the Create and Update handlers respond 400
`PRODUCT_VALIDATION_ERROR` carrying the triggering validation message, with
the store untouched and no repository call made; and every input with
non-empty `sku_code` and non-negative `sku_amount` passes validation. -/
theorem C3_validation_guard (requestID idStr : String) (id : Int) (s : Store) (input : Product)
    (hid : parseInt64 idStr = some id)
    (hbad : input.SkuCode = "" ∨ input.SkuAmount < 0) :
    (CreateProductHandler requestID (some input) s =
      (respondWithError 400 "PRODUCT_VALIDATION_ERROR"
        (if input.SkuCode = "" then "產品名稱不能為空" else "產品庫存不能為負數") requestID,
       s, []) ∧
     UpdateProductHandler requestID idStr (some input) s =
      (respondWithError 400 "PRODUCT_VALIDATION_ERROR"
        (if input.SkuCode = "" then "產品名稱不能為空" else "產品庫存不能為負數") requestID,
       s, [])) ∧
    (∀ p : Product, p.SkuCode ≠ "" → 0 ≤ p.SkuAmount → validateProduct p = none) := by
  have hv : validateProduct input =
      some (if input.SkuCode = "" then "產品名稱不能為空" else "產品庫存不能為負數") := by
    by_cases hcase : input.SkuCode = ""
    · simp [validateProduct, hcase]
    · rcases hbad with hb | hb
      · exact absurd hb hcase
      · simp [validateProduct, hcase, hb]
  refine ⟨⟨?_, ?_⟩, ?_⟩
  · simp [CreateProductHandler, hv]
  · simp [UpdateProductHandler, hid, hv]
  · intro p h1 h2
    simp [validateProduct, h1, not_lt.mpr h2]

/-- Witness for C3 at a body with empty `sku_code`. -/
theorem C3_validation_guard_witness :
    parseInt64 "1" = some 1 ∧
    ((Product.mk 0 "" "N" 3 "" "" "").SkuCode = "" ∨
      (Product.mk 0 "" "N" 3 "" "" "").SkuAmount < 0) ∧
    CreateProductHandler "" (some (Product.mk 0 "" "N" 3 "" "" "")) (Store.mk [] 1 0) =
      (respondWithError 400 "PRODUCT_VALIDATION_ERROR"
        (if (Product.mk 0 "" "N" 3 "" "" "").SkuCode = "" then "產品名稱不能為空"
         else "產品庫存不能為負數") "",
       Store.mk [] 1 0, []) :=
  ⟨by decide, Or.inl rfl,
   ((C3_validation_guard "" "1" 1 (Store.mk [] 1 0) (Product.mk 0 "" "N" 3 "" "" "")
      (by decide) (Or.inl rfl)).1).1⟩

/-- Claim C4: applying `UpdateNonBlank` with empty `sku_name`/`expiration` and
non-empty `sku_code` rewrites the matched row by changing only `sku_code`,
`sku_amount` and `update_at`; the stored row's `sku_name`, `expiration`,
`create_at` and `id` retain their prior values (the returned scan additionally
carries `""` for the unselected `create_at` column). -/
theorem C4_partial_update_frame (s : Store) (id : Int) (input r : Product)
    (hfind : s.rows.find? (fun q => q.ID == id) = some r)
    (hname : input.SkuName = "") (hexp : input.Expiration = "")
    (hcode : input.SkuCode ≠ "") :
    Store.UpdateNonBlank s id input =
      (.ok { r with SkuCode := input.SkuCode, SkuAmount := input.SkuAmount,
                    UpdateAt := timeStr s.now, CreateAt := "" },
       { s with rows := s.rows.map (fun q => if q.ID == id then
           { r with SkuCode := input.SkuCode, SkuAmount := input.SkuAmount,
                    UpdateAt := timeStr s.now } else q),
                now := s.now + 1 }) ∧
    ({ r with SkuCode := input.SkuCode, SkuAmount := input.SkuAmount,
              UpdateAt := timeStr s.now } : Product).SkuName = r.SkuName ∧
    ({ r with SkuCode := input.SkuCode, SkuAmount := input.SkuAmount,
              UpdateAt := timeStr s.now } : Product).Expiration = r.Expiration ∧
    ({ r with SkuCode := input.SkuCode, SkuAmount := input.SkuAmount,
              UpdateAt := timeStr s.now } : Product).CreateAt = r.CreateAt ∧
    ({ r with SkuCode := input.SkuCode, SkuAmount := input.SkuAmount,
              UpdateAt := timeStr s.now } : Product).ID = r.ID := by
  refine ⟨?_, rfl, rfl, rfl, rfl⟩
  simp [Store.UpdateNonBlank, UpdateNonBlankBuild, hname, hexp, hcode, hfind, applySet,
    SqlValue.asInt, SqlValue.asString]

/-- Concrete row, store and input for the C4 witness. -/
def c4Row : Product := Product.mk 1 "A" "B" 2 "C" "t0" "t0"

/-- Store holding exactly `c4Row`. -/
def c4Store : Store := Store.mk [c4Row] 2 1

/-- Update input with non-empty code, empty name and expiration. -/
def c4Input : Product := Product.mk 0 "X" "" 5 "" "" ""

/-- Witness for C4 at a one-row store. -/
theorem C4_partial_update_frame_witness :
    c4Store.rows.find? (fun q => q.ID == (1 : Int)) = some c4Row ∧
    Store.UpdateNonBlank c4Store 1 c4Input =
      (.ok { c4Row with SkuCode := c4Input.SkuCode, SkuAmount := c4Input.SkuAmount,
                        UpdateAt := timeStr c4Store.now, CreateAt := "" },
       { c4Store with rows := c4Store.rows.map (fun q => if q.ID == (1 : Int) then
           { c4Row with SkuCode := c4Input.SkuCode, SkuAmount := c4Input.SkuAmount,
                        UpdateAt := timeStr c4Store.now } else q),
                      now := c4Store.now + 1 }) :=
  ⟨by decide, (C4_partial_update_frame c4Store 1 c4Input c4Row (by decide) rfl rfl (by decide)).1⟩

/-- Helper: the number of rows removed by DELETE equals the number of rows
matching the WHERE predicate. -/
theorem length_sub_filter_not (l : List Product) (p : Product → Bool) :
    l.length - (l.filter (fun r => !(p r))).length = (l.filter p).length := by
  induction l with
  | nil => simp
  | cons a t ih =>
    have hle : (t.filter (fun r => !(p r))).length ≤ t.length := List.length_filter_le _ t
    by_cases h : p a <;> simp [List.filter_cons, h] <;> omega

/-- Claim C5: repository `Delete` returns `ErrProductNotFound` exactly when
zero rows match the id, and deleting the same id twice yields success first
and `ErrProductNotFound` second (delete is not idempotent). -/
theorem C5_delete_semantics (s : Store) (id : Int) :
    ((Store.Delete s id).1 = .error RepoError.notFound ↔
      (s.rows.filter (fun r => r.ID == id)).length = 0) ∧
    (∀ s2, Store.Delete s id = (.ok (), s2) →
      (Store.Delete s2 id).1 = .error RepoError.notFound) := by
  have hkey := length_sub_filter_not s.rows (fun r => r.ID == id)
  constructor
  · by_cases h0 : (s.rows.filter (fun r => r.ID == id)).length = 0 <;>
      simp [Store.Delete, hkey, h0]
  · intro s2 heq
    by_cases h0 : (s.rows.filter (fun r => r.ID == id)).length = 0
    · simp [Store.Delete, hkey, h0] at heq
    · simp [Store.Delete, hkey, h0] at heq
      have hrows : s2.rows = s.rows.filter (fun r => !(r.ID == id)) := by
        rw [← heq]
      have hfilter2 : s2.rows.filter (fun r => !(r.ID == id)) = s2.rows := by
        rw [hrows, List.filter_filter]
        simp
      simp [Store.Delete, hfilter2]

/-- Witness for C5: delete the only row, then delete the same id again. -/
theorem C5_delete_semantics_witness :
    Store.Delete (Store.mk [Product.mk 1 "A" "B" 2 "C" "t0" "t0"] 2 1) 1 =
      (.ok (), Store.mk [] 2 1) ∧
    (Store.Delete (Store.mk [] 2 1) 1).1 = .error RepoError.notFound :=
  ⟨by decide,
   (C5_delete_semantics (Store.mk [Product.mk 1 "A" "B" 2 "C" "t0" "t0"] 2 1) 1).2
     (Store.mk [] 2 1) (by decide)⟩

/-- Claim C6: in a store whose rows all have ids below the SERIAL counter,
`Create` followed by `GetByID` on the returned id yields a row whose
`sku_code`, `sku_name`, `sku_amount` and `expiration` equal the input's, and
the value returned by `Create` itself already carries those input fields. -/
theorem C6_create_roundtrip (s : Store) (input : Product)
    (hwf : ∀ r ∈ s.rows, r.ID < s.nextId) :
    Store.GetByID (Store.Create s input).2 (Store.Create s input).1.ID =
      .ok { ID := s.nextId, SkuCode := input.SkuCode, SkuName := input.SkuName,
            SkuAmount := input.SkuAmount, Expiration := input.Expiration,
            CreateAt := timeStr s.now, UpdateAt := timeStr s.now } ∧
    (Store.Create s input).1.SkuCode = input.SkuCode ∧
    (Store.Create s input).1.SkuName = input.SkuName ∧
    (Store.Create s input).1.SkuAmount = input.SkuAmount ∧
    (Store.Create s input).1.Expiration = input.Expiration := by
  have hnone : s.rows.find? (fun r => r.ID == s.nextId) = none := by
    rw [List.find?_eq_none]
    intro r hr
    have := hwf r hr
    simp
    omega
  refine ⟨?_, rfl, rfl, rfl, rfl⟩
  simp [Store.Create, Store.GetByID, dbGet, List.find?_append, hnone, getByIDTranslate]

/-- Witness for C6 at the empty store. -/
theorem C6_create_roundtrip_witness :
    (∀ r ∈ (Store.mk [] 1 0).rows, r.ID < (Store.mk [] 1 0).nextId) ∧
    Store.GetByID (Store.Create (Store.mk [] 1 0) (Product.mk 0 "A" "B" 2 "C" "" "")).2
        (Store.Create (Store.mk [] 1 0) (Product.mk 0 "A" "B" 2 "C" "" "")).1.ID =
      .ok (Product.mk 1 "A" "B" 2 "C" (timeStr 0) (timeStr 0)) :=
  ⟨by decide,
   (C6_create_roundtrip (Store.mk [] 1 0) (Product.mk 0 "A" "B" 2 "C" "" "") (by decide)).1⟩

/-- Claim C7: `GetByID` yields `ErrProductNotFound` exactly when zero rows
match the id, any other driver failure is surfaced unchanged as an opaque
fault, and the GET handler maps a non-integer id to 400 `INVALID_PRODUCT_ID`,
the not-found condition to 404 `PRODUCT_NOT_FOUND`, and any other failure to
500 `PRODUCT_FETCH_ERROR` whose message is a fixed generic string independent
of the underlying error text. -/
theorem C7_getbyid_error_mapping (s : Store) (id : Int) (requestID idStr m : String)
    (hid : parseInt64 idStr = none) :
    (Store.GetByID s id = .error RepoError.notFound ↔ ∀ r ∈ s.rows, r.ID ≠ id) ∧
    getByIDTranslate (.error (DbErr.other m)) = .error (RepoError.fault m) ∧
    GetProductHandler requestID idStr s =
      respondWithError 400 "INVALID_PRODUCT_ID" "無效的產品ID" requestID ∧
    GetProductResult requestID (.error RepoError.notFound) =
      respondWithError 404 "PRODUCT_NOT_FOUND" "產品未找到" requestID ∧
    GetProductResult requestID (.error (RepoError.fault m)) =
      respondWithError 500 "PRODUCT_FETCH_ERROR" "獲取產品失敗" requestID := by
  refine ⟨?_, rfl, ?_, rfl, rfl⟩
  · unfold Store.GetByID dbGet
    rcases hfind : s.rows.find? (fun r => r.ID == id) with _ | r
    · have hall := List.find?_eq_none.mp hfind
      rw [hfind]
      simp [getByIDTranslate]
      intro q hq
      simpa using hall q hq
    · rw [hfind]
      have hmem := List.mem_of_find?_eq_some hfind
      have hpr := List.find?_some hfind
      simp at hpr
      simp [getByIDTranslate]
      exact ⟨r, hmem, hpr⟩
  · simp [GetProductHandler, hid]

/-- Witness for C7 at the empty store and the non-integer id "abc". -/
theorem C7_getbyid_error_mapping_witness :
    parseInt64 "abc" = none ∧
    (Store.GetByID (Store.mk [] 1 0) 1 = .error RepoError.notFound ↔
      ∀ r ∈ (Store.mk [] 1 0).rows, r.ID ≠ (1 : Int)) ∧
    GetProductHandler "" "abc" (Store.mk [] 1 0) =
      respondWithError 400 "INVALID_PRODUCT_ID" "無效的產品ID" "" :=
  ⟨by decide,
   (C7_getbyid_error_mapping (Store.mk [] 1 0) 1 "" "abc" "boom" (by decide)).1,
   (C7_getbyid_error_mapping (Store.mk [] 1 0) 1 "" "abc" "boom" (by decide)).2.2.1⟩

/-- Claim C8: `GetAll` succeeds with the stored rows sorted by ascending id
(a permutation of the store's rows, sorted under `rowLe`), and on an empty
store it returns the empty list with no error. -/
theorem C8_getall_ordered (s : Store) :
    Store.GetAll s = .ok (List.insertionSort rowLe s.rows) ∧
    (List.insertionSort rowLe s.rows).Perm s.rows ∧
    List.Sorted rowLe (List.insertionSort rowLe s.rows) ∧
    (∀ n t, Store.GetAll (Store.mk [] n t) = .ok []) :=
  ⟨rfl, List.perm_insertionSort rowLe s.rows, List.sorted_insertionSort rowLe s.rows,
   fun _ _ => rfl⟩

/-- Claim C9: every field of the serialized Product is omitted exactly when it
holds its zero value; in particular a product with `sku_amount = 0` carries no
`sku_amount` key at all. -/
theorem C9_omitempty (p : Product) :
    (("id" ∈ (productJson p).map Prod.fst) ↔ p.ID ≠ 0) ∧
    (("sku_code" ∈ (productJson p).map Prod.fst) ↔ p.SkuCode ≠ "") ∧
    (("sku_name" ∈ (productJson p).map Prod.fst) ↔ p.SkuName ≠ "") ∧
    (("sku_amount" ∈ (productJson p).map Prod.fst) ↔ p.SkuAmount ≠ 0) ∧
    (("expiration" ∈ (productJson p).map Prod.fst) ↔ p.Expiration ≠ "") ∧
    (("create_at" ∈ (productJson p).map Prod.fst) ↔ p.CreateAt ≠ "") ∧
    (("update_at" ∈ (productJson p).map Prod.fst) ↔ p.UpdateAt ≠ "") := by
  unfold productJson
  split_ifs <;> simp_all

/-- A well-formed request body used to drive the Update handler to the
service layer. -/
def sampleBody : Product := Product.mk 0 "SKU001" "" 0 "" "" ""

/-- Claim C10: every id path segment that parses as a negative 64-bit integer
is not rejected with 400 `INVALID_PRODUCT_ID` by the GET, PUT and DELETE
handlers: the parsed negative id is forwarded to the service layer, and on a
store whose ids are all positive the request ends in 404 `PRODUCT_NOT_FOUND`;
the segment "-5" is such a segment. -/
theorem C10_negative_id_not_rejected (requestID idStr : String) (id : Int) (s : Store)
    (hid : parseInt64 idStr = some id) (hneg : id < 0)
    (hpos : ∀ r ∈ s.rows, 1 ≤ r.ID) :
    GetProductHandler requestID idStr s =
      respondWithError 404 "PRODUCT_NOT_FOUND" "產品未找到" requestID ∧
    UpdateProductHandler requestID idStr (some sampleBody) s =
      (respondWithError 404 "PRODUCT_NOT_FOUND" "產品未找到" requestID, s,
       [RepoCall.getByID]) ∧
    DeleteProductHandler requestID idStr s =
      (respondWithError 404 "PRODUCT_NOT_FOUND" "產品未找到" requestID, s,
       [RepoCall.getByID]) ∧
    parseInt64 "-5" = some (-5) := by
  have hfind : s.rows.find? (fun r => r.ID == id) = none := by
    rw [List.find?_eq_none]
    intro r hr
    have := hpos r hr
    simp
    omega
  have hget : s.GetByID id = .error RepoError.notFound := by
    simp [Store.GetByID, dbGet, hfind, getByIDTranslate]
  refine ⟨?_, ?_, ?_, by decide⟩
  · simp [GetProductHandler, hid, GetProductSvc, hget, GetProductResult]
  · simp [UpdateProductHandler, hid, validateProduct, sampleBody, UpdateProductSvc, hget,
      UpdateProductResult]
  · simp [DeleteProductHandler, DeleteProductSvc, hid, hget]

/-- Witness for C10 at the segment "-5" and the empty store. -/
theorem C10_negative_id_not_rejected_witness :
    parseInt64 "-5" = some (-5) ∧
    (-5 : Int) < 0 ∧
    (∀ r ∈ (Store.mk [] 1 0).rows, 1 ≤ r.ID) ∧
    GetProductHandler "" "-5" (Store.mk [] 1 0) =
      respondWithError 404 "PRODUCT_NOT_FOUND" "產品未找到" "" ∧
    DeleteProductHandler "" "-5" (Store.mk [] 1 0) =
      (respondWithError 404 "PRODUCT_NOT_FOUND" "產品未找到" "", Store.mk [] 1 0,
       [RepoCall.getByID]) :=
  ⟨by decide, by decide, by decide,
   (C10_negative_id_not_rejected "" "-5" (-5) (Store.mk [] 1 0)
      (by decide) (by decide) (by decide)).1,
   (C10_negative_id_not_rejected "" "-5" (-5) (Store.mk [] 1 0)
      (by decide) (by decide) (by decide)).2.2.1⟩
